import Mathlib

/-!
Verification of the MRI safety report tools.

The repository holds two near-duplicate Python scripts:
  * `src/app.py`      (variant 1): fetches FHIR resources from Epic per patient,
    sends the assembled history to a generative-AI model, extracts two labelled
    fields from the free-text reply, and accumulates one report row per found
    patient.
  * `src/mri_tool.py` (variant 2): POSTs each MRN to a remote triage endpoint
    and flattens the structured response (`parse_data_to_row`) into one report
    row per submitted MRN, error rows included.

This file shallowly embeds the row-producing logic of both scripts.  JSON
values are modelled by `JsonV`; Python operations that can raise
(`d[k]`, `d.get` on a non-dict, slicing a non-sliceable value, ...) are
modelled in the `Except String` monad, the error string naming the Python
exception class.  Network effects are modelled by response oracles passed in
as functions.  All definitions are computable and structurally recursive so
that concrete runs evaluate by `rfl`/`decide`.
-/

/-- A JSON value as produced by `response.json()` in either script.
`obj` keeps insertion order, as Python dicts do; keys are unique in any
value that Python's JSON decoder can actually produce. -/
inductive JsonV : Type where
  | null : JsonV
  | b : Bool → JsonV
  | i : Int → JsonV
  | s : String → JsonV
  | arr : List JsonV → JsonV
  | obj : List (String × JsonV) → JsonV

/-- Python truthiness (`bool(v)`) for the modelled JSON values. -/
def JsonV.truthy : JsonV → Bool
  | .null => false
  | .b v => v
  | .i v => v != 0
  | .s v => v != ""
  | .arr xs => !xs.isEmpty
  | .obj kvs => !kvs.isEmpty

/-- Python `a or b`: `a` when truthy, else `b`. -/
def pyOr (a b : JsonV) : JsonV := if a.truthy then a else b

/-- Python `v == "t"` where the right operand is a string literal:
true exactly for an equal string; any other value compares unequal
(no exception). -/
def pyEqStr (v : JsonV) (t : String) : Bool :=
  match v with
  | .s u => u == t
  | _ => false

/-- The default-whitespace set of Python's `str.strip` and of `\s` in `re`. -/
def pyIsSpace (c : Char) : Bool :=
  c == ' ' || c == '\t' || c == '\n' || c == '\r' || c == '\x0b' || c == '\x0c'

/-- Python `str.strip()` on a character list: drop whitespace on both ends. -/
def pyStripL (l : List Char) : List Char :=
  ((l.dropWhile pyIsSpace).reverse.dropWhile pyIsSpace).reverse

/-- Python `repr(v)` for the modelled values: containers render their
elements recursively, strings are quoted. -/
def pyRepr : JsonV → String
  | .null => "None"
  | .b true => "True"
  | .b false => "False"
  | .i n => toString n
  | .s v => "\x27" ++ v ++ "\x27"
  | .arr xs =>
      "[" ++ String.intercalate ", " (xs.attach.map (fun x => pyRepr x.1)) ++ "]"
  | .obj kvs =>
      "\x7b" ++
        String.intercalate ", "
          (kvs.attach.map
            (fun kv => "\x27" ++ kv.1.1 ++ "\x27: " ++ pyRepr kv.1.2)) ++
      "\x7d"
decreasing_by
  · have := List.sizeOf_lt_of_mem x.2
    simp only [JsonV.arr.sizeOf_spec]
    omega
  · have h1 := List.sizeOf_lt_of_mem kv.2
    have h2 : sizeOf kv.1.2 < sizeOf kv.1 := by
      obtain ⟨⟨a, b⟩, hm⟩ := kv
      simp
    simp only [JsonV.obj.sizeOf_spec]
    omega

/-- Python `str(v)`: the string itself for strings, `repr`-style rendering
for every other value (`None`, `True`, numbers, lists, dicts). -/
def pyStr : JsonV → String
  | .null => "None"
  | .b true => "True"
  | .b false => "False"
  | .i n => toString n
  | .s v => v
  | v => pyRepr v

/-- Python `d.get(k, default)`: needs a dict receiver, else `AttributeError`. -/
def pyGetD (v : JsonV) (k : String) (d : JsonV) : Except String JsonV :=
  match v with
  | .obj kvs => .ok ((kvs.lookup k).getD d)
  | _ => .error "AttributeError"

/-- Python `d.get(k)` (default `None`). -/
def pyGet (v : JsonV) (k : String) : Except String JsonV := pyGetD v k .null

/-- Python `v[k]` with a string key: `KeyError` when the key is absent,
`TypeError` when the receiver is not a dict. -/
def pyKey (v : JsonV) (k : String) : Except String JsonV :=
  match v with
  | .obj kvs =>
      match kvs.lookup k with
      | some x => .ok x
      | none => .error "KeyError"
  | _ => .error "TypeError"

/-- Python `v[i]` with a non-negative integer index: list element or string
character, `IndexError` out of range, `TypeError` otherwise. -/
def pyIdx (v : JsonV) (i : Nat) : Except String JsonV :=
  match v with
  | .arr xs =>
      match xs.get? i with
      | some x => .ok x
      | none => .error "IndexError"
  | .s t =>
      match t.data.get? i with
      | some ch => .ok (.s (String.mk [ch]))
      | none => .error "IndexError"
  | _ => .error "TypeError"

/-- Python `for x in v`: lists yield elements, dicts yield their keys in
insertion order, strings yield one-character strings; other values raise
`TypeError`. -/
def pyIterate : JsonV → Except String (List JsonV)
  | .arr xs => .ok xs
  | .obj kvs => .ok (kvs.map (fun kv => .s kv.1))
  | .s t => .ok (t.data.map (fun ch => .s (String.mk [ch])))
  | _ => .error "TypeError"

/-- The remainder of `l` just past the leftmost occurrence of `pat`, or
`none` when `pat` does not occur in `l`. -/
def afterFirst (pat : List Char) : List Char → Option (List Char)
  | [] => if pat.isPrefixOf ([] : List Char) then some [] else none
  | c :: rest =>
      if pat.isPrefixOf (c :: rest) then some ((c :: rest).drop pat.length)
      else afterFirst pat rest

/-- Python `pat in t` for two strings (substring containment). -/
def containsSub (pat l : List Char) : Bool := (afterFirst pat l).isSome

/-- Python `key in v`: key membership for dicts, element equality for lists
(a string equals only an equal string), substring test for strings;
`TypeError` otherwise. -/
def pyIn (key : String) : JsonV → Except String Bool
  | .obj kvs => .ok ((kvs.lookup key).isSome)
  | .arr xs => .ok (xs.any (fun v => pyEqStr v key))
  | .s t => .ok (containsSub key.data t.data)
  | _ => .error "TypeError"

/-- One pass of Python `str.replace(old, new)` on character lists, fuelled by
the input length (sufficient for the non-empty patterns the scripts use). -/
def replaceFuel (old new : List Char) : Nat → List Char → List Char
  | 0, l => l
  | _ + 1, [] => []
  | fuel + 1, c :: rest =>
      if old.isPrefixOf (c :: rest) && !old.isEmpty then
        new ++ replaceFuel old new fuel (rest.drop (old.length - 1))
      else
        c :: replaceFuel old new fuel rest

/-- Python `t.replace(old, new)` for a non-empty `old`: leftmost,
non-overlapping replacement of every occurrence. -/
def pyReplace (t old new : String) : String :=
  String.mk (replaceFuel old.data new.data t.data.length t.data)

/-- Python `v.upper()`: needs a string receiver, else `AttributeError`. -/
def pyUpperE (v : JsonV) : Except String String :=
  match v with
  | .s t => .ok (String.mk (t.data.map Char.toUpper))
  | _ => .error "AttributeError"

/-- Python `v.lower()` on a value already known to be a string. -/
def pyLower (t : String) : String := String.mk (t.data.map Char.toLower)

/-- Python `sep.join(v)`: iterate `v`, demand every element be a string,
concatenate with the separator. -/
def pyJoin (sep : String) (v : JsonV) : Except String String := do
  let items ← pyIterate v
  let strs ← items.mapM (fun x =>
    match x with
    | JsonV.s t => Except.ok t
    | _ => Except.error "TypeError")
  pure (String.intercalate sep strs)

/-! ## Variant 2: `src/mri_tool.py` -/

/-- A flat report row: column name to cell value, in column order. -/
abbrev Row := List (String × JsonV)

/-- Outcome of the POST issued by `fetch_patient_data`: either some exception
inside the `try` block (transport failure, `raise_for_status` on a non-2xx
response, or a JSON decode failure), carrying `str(e)`, or a decoded body. -/
inductive PostResult : Type where
  | exn : String → PostResult
  | ok : JsonV → PostResult

/-- `fetch_patient_data(mrn)`: on any exception returns the error dict
`{"error": str(e), "patient_info": {"mrn": mrn}}`, else the decoded body. -/
def fetch_patient_data (mrn : String) (r : PostResult) : JsonV :=
  match r with
  | .exn e => .obj [("error", .s e), ("patient_info", .obj [("mrn", .s mrn)])]
  | .ok body => body

/-- `item.get("description", "Unknown Device")[:50] + "..."`: slicing plus
string concatenation, a `TypeError` for non-string values. -/
def descTrunc : JsonV → Except String JsonV
  | .s t => .ok (.s (String.mk (t.data.take 50) ++ "..."))
  | _ => .error "TypeError"

/-- The `for item in findings_list` loop of `parse_data_to_row`: collects one
bullet line per finding flagged `has_concern`. -/
def findingsLoop : List JsonV → Except String (List String)
  | [] => .ok []
  | item :: rest => do
      let hc ← pyGet item "has_concern"
      if hc.truthy then
        let idata ← pyGetD item "item_data" (.obj [])
        let resource ← pyGetD idata "resource" (.obj [])
        let dnames ← pyGetD resource "deviceName" (.arr [])
        let nm ← if dnames.truthy then do
            let d0 ← pyIdx dnames 0
            pyKey d0 "name"
          else do
            let desc ← pyGetD item "description" (.s "Unknown Device")
            descTrunc desc
        let model ← pyGetD resource "modelNumber" (.s "N/A")
        let cl ← pyGetD item "concern_level" (.s "")
        let clU ← pyUpperE cl
        let tail ← findingsLoop rest
        pure (("• " ++ pyStr nm ++ " (Model: " ++ pyStr model ++ ") - " ++ clU ++ " risk")
          :: tail)
      else
        findingsLoop rest

/-- `patient.get(k, "").replace(emoji, "")`: the emoji-stripping extraction
used for the MRN/Name/DOB/Gender cells; `AttributeError` when the stored
value is not a string. -/
def pyReplaceField (patient : JsonV) (k : String) (emoji : String) :
    Except String String := do
  let v ← pyGetD patient k (.s "")
  match v with
  | .s t => .ok (pyReplace t emoji "")
  | _ => .error "AttributeError"

/-- `parse_data_to_row(data)`: the error branch (taken whenever the `"error"`
key is present) builds the reduced three-column row; the success branch
flattens the nested structure into the fixed eleven-column row. -/
def parse_data_to_row (data : JsonV) : Except String Row := do
  let hasErr ← pyIn "error" data
  if hasErr then
    let pinfo ← pyGetD data "patient_info" (.obj [])
    let mrnv ← pyGetD pinfo "mrn" (.s "Unknown")
    let errv ← pyKey data "error"
    pure [("MRN", mrnv), ("Status", .s "API Error"), ("Summary", errv)]
  else
    let assessment ← pyGetD data "mri_safety_assessment" (.obj [])
    let patient ← pyGetD data "patient_info" (.obj [])
    let details ← pyGetD data "analysis_details" (.obj [])
    let findings ← pyGetD details "individual_findings" (.arr [])
    let items ← pyIterate findings
    let devices_found ← findingsLoop items
    let concerns ← pyGetD assessment "concerns" (.arr [])
    let concerns_str ← pyJoin "\n" concerns
    let recs ← pyGetD assessment "recommendations" (.arr [])
    let recs_str ← pyJoin "\n" recs
    let devices_str := String.intercalate "\n" devices_found
    let mrn ← pyReplaceField patient "mrn" "🏥 "
    let nme ← pyReplaceField patient "name" "👤 "
    let dob ← pyReplaceField patient "dob" "📅 "
    let gender ← pyReplaceField patient "gender" "⚧ "
    let status ← pyGetD assessment "status" (.s "")
    let risk ← pyGetD assessment "risk" (.s "")
    let summary ← pyGetD assessment "summary" (.s "")
    let ts ← pyGetD data "timestamp" (.s "")
    pure [("MRN", .s mrn), ("Name", .s nme), ("DOB", .s dob), ("Gender", .s gender),
      ("Safety Status", status), ("Risk Level", risk),
      ("Devices/Implants Found", .s devices_str),
      ("Clinical Summary", summary), ("Key Concerns", .s concerns_str),
      ("Technologist Recommendations", .s recs_str), ("Timestamp", ts)]

/-- The batch loop of `mri_tool.py`: one fetch and one flattened row per
submitted MRN, appended in input order.  The remote endpoint is modelled by
an oracle from the MRN to the POST outcome. -/
def mriToolMainLoop (remote : String → PostResult) :
    List String → Except String (List Row)
  | [] => .ok []
  | mrn :: rest => do
      let row ← parse_data_to_row (fetch_patient_data mrn (remote mrn))
      let tail ← mriToolMainLoop remote rest
      pure (row :: tail)

/-! ## Variant 1: `src/app.py` -/

/-- Outcome of one GET issued inside `safe_get_json`: an exception inside the
`try` (transport failure or a JSON decode failure on a 200 response is folded
into `exn`), or a status code with a decoded body. -/
inductive GetResult : Type where
  | exn : GetResult
  | ok : Nat → JsonV → GetResult

/-- `safe_get_json`: the decoded body on a 200 response, `{}` on any other
status or on any exception. -/
def safe_get_json : GetResult → JsonV
  | .exn => .obj []
  | .ok status body => if status == 200 then body else .obj []

/-- A request that "fails" in the sense of the spec: transport error or a
non-200 status. -/
def failedB : GetResult → Bool
  | .exn => true
  | .ok status _ => status != 200

/-- The five FHIR search requests `get_patient_data` issues, one per
resource category. -/
inductive Category : Type where
  | patient | device | condition | procedure | diagnosticReport
deriving DecidableEq

/-- The normalized bundle returned by `get_patient_data`:
`(pid, name, list_devs, list_conds, list_procs, list_imgs)`.  The explicit
not-found signal is the all-`None`/empty bundle. -/
structure Bundle : Type where
  pid : JsonV
  name : JsonV
  devs : List String
  conds : List String
  procs : List String
  imgs : List String

/-- The finding list of a bundle for one of the four detail categories. -/
def Bundle.cat : Bundle → Category → List String
  | _, .patient => []
  | b, .device => b.devs
  | b, .condition => b.conds
  | b, .procedure => b.procs
  | b, .diagnosticReport => b.imgs

/-- The helper `clean(t)` of `get_patient_data`:
`str(t).replace('\n', ' ').strip()[:300]`. -/
def clean (t : JsonV) : String :=
  String.mk
    ((pyStripL ((pyStr t).data.map (fun c => if c == '\n' then ' ' else c))).take 300)

/-- The device loop: `e['resource'].get('deviceName', [{}])[0].get('name')`
with the `or "Unknown Device"` fallback, cleaned. -/
def devLoop : List JsonV → Except String (List String)
  | [] => .ok []
  | e :: rest => do
      let resc ← pyKey e "resource"
      let dn ← pyGetD resc "deviceName" (.arr [.obj []])
      let d0 ← pyIdx dn 0
      let nm ← pyGet d0 "name"
      let tail ← devLoop rest
      pure (clean (pyOr nm (.s "Unknown Device")) :: tail)

/-- The condition loop: keeps only entries whose
`clinicalStatus.coding[0].code` equals `"active"`, naming them by
`code.text` with the `or "Unknown Condition"` fallback, cleaned. -/
def condLoop : List JsonV → Except String (List String)
  | [] => .ok []
  | e :: rest => do
      let resc ← pyKey e "resource"
      let cs ← pyGetD resc "clinicalStatus" (.obj [])
      let coding ← pyGetD cs "coding" (.arr [.obj []])
      let c0 ← pyIdx coding 0
      let code ← pyGet c0 "code"
      if pyEqStr code "active" then
        let cd ← pyGetD resc "code" (.obj [])
        let txt ← pyGet cd "text"
        let tail ← condLoop rest
        pure (clean (pyOr txt (.s "Unknown Condition")) :: tail)
      else
        condLoop rest

/-- The procedure loop: cleaned `code.text` (fallback `"Unknown Procedure"`)
with the raw `performedPeriod.start` (fallback `""`) appended as
`f"{clean(p_name)} ({p_date})"`. -/
def procLoop : List JsonV → Except String (List String)
  | [] => .ok []
  | e :: rest => do
      let resc ← pyKey e "resource"
      let cd ← pyGetD resc "code" (.obj [])
      let txt ← pyGet cd "text"
      let pp ← pyGetD resc "performedPeriod" (.obj [])
      let pstart ← pyGet pp "start"
      let tail ← procLoop rest
      pure ((clean (pyOr txt (.s "Unknown Procedure")) ++ " (" ++
        pyStr (pyOr pstart (.s "")) ++ ")") :: tail)

/-- The diagnostic-report loop: keeps reports whose lower-cased
`category[0].text` rendering contains `"radiology"` or `"imaging"`, naming
them by `code.text` with the `or "Study"` fallback, cleaned. -/
def imgLoop : List JsonV → Except String (List String)
  | [] => .ok []
  | e :: rest => do
      let resc ← pyKey e "resource"
      let catArr ← pyGetD resc "category" (.arr [.obj []])
      let c0 ← pyIdx catArr 0
      let ctext ← pyGet c0 "text"
      let cat := pyLower (pyStr ctext)
      if containsSub "radiology".data cat.data || containsSub "imaging".data cat.data then
        let cd ← pyGetD resc "code" (.obj [])
        let txt ← pyGet cd "text"
        let tail ← imgLoop rest
        pure (clean (pyOr txt (.s "Study")) :: tail)
      else
        imgLoop rest

/-- `for e in devs.get('entry', [])` over the Device search response. -/
def extractDevs (resp : JsonV) : Except String (List String) := do
  let ent ← pyGetD resp "entry" (.arr [])
  let es ← pyIterate ent
  devLoop es

/-- `for e in conds.get('entry', [])` over the Condition search response. -/
def extractConds (resp : JsonV) : Except String (List String) := do
  let ent ← pyGetD resp "entry" (.arr [])
  let es ← pyIterate ent
  condLoop es

/-- `for e in procs.get('entry', [])` over the Procedure search response. -/
def extractProcs (resp : JsonV) : Except String (List String) := do
  let ent ← pyGetD resp "entry" (.arr [])
  let es ← pyIterate ent
  procLoop es

/-- `for e in rpts.get('entry', [])` over the DiagnosticReport response. -/
def extractImgs (resp : JsonV) : Except String (List String) := do
  let ent ← pyGetD resp "entry" (.arr [])
  let es ← pyIterate ent
  imgLoop es

/-- The per-category detail extraction of `get_patient_data`; the Patient
category carries no finding list. -/
def catExtract : Category → JsonV → Except String (List String)
  | .patient, _ => .ok []
  | .device, r => extractDevs r
  | .condition, r => extractConds r
  | .procedure, r => extractProcs r
  | .diagnosticReport, r => extractImgs r

/-- The Patient lookup step of `get_patient_data`: `none` when
`pt_resp.get('total')` is falsy, else
`(pt_resp['entry'][0]['resource']['id'],
pt_resp['entry'][0]['resource']['name'][0]['text'])` (the source re-derives
the same `resource` value for the name; being pure data, it is read once
here). -/
def patientStage (pt_resp : JsonV) : Except String (Option (JsonV × JsonV)) := do
  let total ← pyGet pt_resp "total"
  if total.truthy then
    let ent ← pyKey pt_resp "entry"
    let e0 ← pyIdx ent 0
    let resc ← pyKey e0 "resource"
    let pid ← pyKey resc "id"
    let nmArr ← pyKey resc "name"
    let nm0 ← pyIdx nmArr 0
    let nmText ← pyKey nm0 "text"
    pure (some (pid, nmText))
  else
    pure none

/-- `get_patient_data(mrn, token)`: Patient lookup first (the not-found
signal is the all-`None`/empty bundle), then the four independent
`safe_get_json` detail fetches.  The network is an oracle from the category
to that request's outcome. -/
def get_patient_data (fetch : Category → GetResult) : Except String Bundle := do
  match ← patientStage (safe_get_json (fetch .patient)) with
  | none => pure ⟨.null, .null, [], [], [], []⟩
  | some (pid, name) => do
      let devs ← extractDevs (safe_get_json (fetch .device))
      let conds ← extractConds (safe_get_json (fetch .condition))
      let procs ← extractProcs (safe_get_json (fetch .procedure))
      let imgs ← extractImgs (safe_get_json (fetch .diagnosticReport))
      pure ⟨pid, name, devs, conds, procs, imgs⟩

/-- The history text assembled by `analyze_with_ai` before truncation:
header, 40-dash rule, then one block per non-empty finding list. -/
def histSection (hdr : String) (items : List String) : String :=
  if items.isEmpty then ""
  else hdr ++ "\n" ++ String.intercalate "\n" (items.map (fun d => "- " ++ d)) ++ "\n"

/-- `history_str` as first assembled from the four finding lists. -/
def buildHistory (devs conds procs imgs : List String) : String :=
  "Patient\x27s Clinical History (FHIR Data):\n" ++
    String.mk (List.replicate 40 '-') ++ "\n" ++
    histSection "DEVICES:" devs ++ histSection "CONDITIONS:" conds ++
    histSection "SURGERIES:" procs ++ histSection "IMAGING:" imgs

/-- The fixed truncation suffix appended when the history exceeds 28,000
characters. -/
def truncSuffix : String := "\n...[TRUNCATED]"

/-- `history_str` after the length guard:
`history_str[:28000] + "\n...[TRUNCATED]"` when longer than 28,000
characters, unchanged otherwise. -/
def truncatedHistory (devs conds procs imgs : List String) : String :=
  let h := buildHistory devs conds procs imgs
  if h.length > 28000 then String.mk (h.data.take 28000) ++ truncSuffix else h

/-- The prompt template text before the embedded history (the f-string keeps
its source indentation). -/
def promptPre (name : String) : String :=
  "\n    You are an MRI safety expert.\n    Patient: " ++ name ++ "\n    "

/-- The prompt template text after the embedded history. -/
def promptPost : String :=
  "\n    \n    Determine MRI Safety Status (Safe, Conditional, Unsafe) and Risk Level (Low, Mod, High).\n    Provide key findings and specific recommendations.\n    \n    OUTPUT FORMAT:\n    **MRI Safety Status:** [Status]\n    **Risk Level:** [Level]\n    **Analysis:** [Full detailed analysis]\n    "

/-- The full prompt `analyze_with_ai` sends to `model.generate_content`. -/
def analyzePrompt (name : JsonV) (devs conds procs imgs : List String) : String :=
  promptPre (pyStr name) ++ truncatedHistory devs conds procs imgs ++ promptPost

/-- `analyze_with_ai`: the model reply on success; any exception `e` from the
AI call is caught and turned into the text `"AI Error: " + str(e)`.  The
model is an oracle from the prompt to the call's outcome. -/
def analyze_with_ai (gen : String → Except String String) (name : JsonV)
    (devs conds procs imgs : List String) : String :=
  match gen (analyzePrompt name devs conds procs imgs) with
  | .ok t => t
  | .error e => "AI Error: " ++ e

/-- The literal marker of the status line of the expected AI reply. -/
def statusMarker : String := "**MRI Safety Status:**"

/-- The literal marker of the risk line of the expected AI reply. -/
def riskMarker : String := "**Risk Level:**"

/-- The field extraction of the main loop:
`re.search(marker + r"\s*(.*)", ai_report)` followed by `.group(1).strip()`,
with `"Unknown"` when the marker is absent.  The regex matches at the
leftmost occurrence of the literal marker; `\s*` greedily crosses
whitespace (newlines included) and `(.*)` captures to the end of that
line. -/
def extractField (marker : String) (reply : String) : String :=
  match afterFirst marker.data reply.data with
  | none => "Unknown"
  | some rest =>
      String.mk (pyStripL ((rest.dropWhile pyIsSpace).takeWhile (fun c => c != '\n')))

/-- The row built by the main loop of `app.py` for a found patient. -/
def processFound (gen : String → Except String String) (mrn : String) (b : Bundle) :
    Row :=
  let ai_report := analyze_with_ai gen b.name b.devs b.conds b.procs b.imgs
  [("MRN", .s mrn), ("Name", b.name),
   ("Safety Status", .s (extractField statusMarker ai_report)),
   ("Risk Level", .s (extractField riskMarker ai_report)),
   ("Full Analysis", .s ai_report),
   ("Devices", .s (String.intercalate " | " b.devs)),
   ("Conditions", .s (String.intercalate " | " b.conds))]

/-- The batch loop of `app.py`: per MRN, fetch the bundle; a falsy `pid`
(`if not pid: ... continue`) contributes no row; otherwise one row is
appended.  The FHIR server is an oracle from the MRN and category to that
request's outcome. -/
def appMainLoop (fhir : String → Category → GetResult)
    (gen : String → Except String String) :
    List String → Except String (List Row)
  | [] => .ok []
  | mrn :: rest => do
      let b ← get_patient_data (fhir mrn)
      if b.pid.truthy then
        let tail ← appMainLoop fhir gen rest
        pure (processFound gen mrn b :: tail)
      else
        appMainLoop fhir gen rest

/-- An identifier's Patient lookup "succeeded": `get_patient_data` returned
normally with a truthy `pid` (exactly the condition under which the main
loop keeps the patient). -/
def lookupFound (fetch : Category → GetResult) : Bool :=
  match get_patient_data fetch with
  | .ok b => b.pid.truthy
  | .error _ => false

/-! ## Specification-side helpers used to state the claims -/

/-- The clinical-status code the condition loop tests:
`e['resource'].get('clinicalStatus', {}).get('coding', [{}])[0].get('code')`. -/
def condCodeT (e : JsonV) : Except String JsonV := do
  let resc ← pyKey e "resource"
  let cs ← pyGetD resc "clinicalStatus" (.obj [])
  let coding ← pyGetD cs "coding" (.arr [.obj []])
  let c0 ← pyIdx coding 0
  pyGet c0 "code"

/-- The condition name source:
`e['resource'].get('code', {}).get('text')`. -/
def condNameT (e : JsonV) : Except String JsonV := do
  let resc ← pyKey e "resource"
  let cd ← pyGetD resc "code" (.obj [])
  pyGet cd "text"

/-- What one condition entry contributes to the active-conditions list:
its cleaned display name when its clinical-status code is `"active"`,
nothing otherwise. -/
def condPick (e : JsonV) : Option String :=
  match condCodeT e with
  | .ok code =>
      if pyEqStr code "active" then
        some (clean (pyOr ((condNameT e).toOption.getD .null) (.s "Unknown Condition")))
      else none
  | .error _ => none

/-- The fixed column schema of a variant-1 report row. -/
def v1Cols : List String :=
  ["MRN", "Name", "Safety Status", "Risk Level", "Full Analysis", "Devices",
   "Conditions"]

/-- The column schema of a variant-2 success row. -/
def v2SuccessCols : List String :=
  ["MRN", "Name", "DOB", "Gender", "Safety Status", "Risk Level",
   "Devices/Implants Found", "Clinical Summary", "Key Concerns",
   "Technologist Recommendations", "Timestamp"]

/-- The reduced column schema of a variant-2 error row. -/
def v2ErrorCols : List String := ["MRN", "Status", "Summary"]

/-- The MRN cell of a variant-2 error row:
`data.get("patient_info", {}).get("mrn", "Unknown")`, assuming the
`patient_info` value (when present) is a dict. -/
def errRowMRN (kvs : List (String × JsonV)) : JsonV :=
  match (kvs.lookup "patient_info").getD (.obj []) with
  | .obj ps => (ps.lookup "mrn").getD (.s "Unknown")
  | _ => .s "Unknown"

/-- The `patient_info` value of the response, when present, is itself a
dict — the shape the upstream producers always emit. -/
def pinfoOk (kvs : List (String × JsonV)) : Prop :=
  match (kvs.lookup "patient_info").getD (.obj []) with
  | .obj _ => True
  | _ => False

/-! ## Concrete fixtures used by witnesses and counterexamples -/

/-- A Patient search response with one found patient. -/
def testPatientBody : JsonV :=
  JsonV.obj
    [("total", JsonV.i 1),
     ("entry", JsonV.arr
       [JsonV.obj
         [("resource", JsonV.obj
           [("id", JsonV.s "p1"),
            ("name", JsonV.arr [JsonV.obj [("text", JsonV.s "Alice Smith")]])])]])]

/-- A remote triage endpoint whose every POST raises. -/
def wRemote : String → PostResult := fun _ => PostResult.exn "boom"

/-- A FHIR server that finds patient `"a"` (with every detail request
failing) and otherwise errors on everything. -/
def wFhir : String → Category → GetResult := fun mrn c =>
  if mrn == "a" then
    match c with
    | Category.patient => GetResult.ok 200 testPatientBody
    | _ => GetResult.exn
  else GetResult.exn

/-- An AI model that always answers with a well-formed reply. -/
def wGen : String → Except String String :=
  fun _ => Except.ok "**MRI Safety Status:** Safe\n**Risk Level:** Low"

/-- The bundle `get_patient_data` produces for patient `"a"` under `wFhir`. -/
def wBundle : Bundle := ⟨JsonV.s "p1", JsonV.s "Alice Smith", [], [], [], []⟩

/-- The variant-2 error row for one MRN under `wRemote`. -/
def wErrRow (mrn : String) : Row :=
  [("MRN", JsonV.s mrn), ("Status", JsonV.s "API Error"), ("Summary", JsonV.s "boom")]

/-- A Device search response with one named device. -/
def wDevResp : JsonV :=
  JsonV.obj
    [("entry", JsonV.arr
      [JsonV.obj
        [("resource", JsonV.obj
          [("deviceName", JsonV.arr [JsonV.obj [("name", JsonV.s "Pacemaker")]])])]])]

/-- A Procedure search response with one dated procedure. -/
def wProcResp : JsonV :=
  JsonV.obj
    [("entry", JsonV.arr
      [JsonV.obj
        [("resource", JsonV.obj
          [("code", JsonV.obj [("text", JsonV.s "Appendectomy")]),
           ("performedPeriod", JsonV.obj [("start", JsonV.s "2019-03-04")])])]])]

/-- A Procedure search response whose single entry has a 301-character name
and a performed date containing a newline. -/
def procRespBig : JsonV :=
  JsonV.obj
    [("entry", JsonV.arr
      [JsonV.obj
        [("resource", JsonV.obj
          [("code", JsonV.obj
            [("text", JsonV.s (String.mk (List.replicate 301 'a')))]),
           ("performedPeriod", JsonV.obj [("start", JsonV.s "20\n23")])])]])]

/-- A condition entry with clinical-status code `"active"`. -/
def condActiveEntry : JsonV :=
  JsonV.obj
    [("resource", JsonV.obj
      [("clinicalStatus", JsonV.obj
        [("coding", JsonV.arr [JsonV.obj [("code", JsonV.s "active")]])]),
       ("code", JsonV.obj [("text", JsonV.s "Atrial fibrillation")])])]

/-- A condition entry with clinical-status code `"resolved"`. -/
def condResolvedEntry : JsonV :=
  JsonV.obj
    [("resource", JsonV.obj
      [("clinicalStatus", JsonV.obj
        [("coding", JsonV.arr [JsonV.obj [("code", JsonV.s "resolved")]])]),
       ("code", JsonV.obj [("text", JsonV.s "Old fracture")])])]

/-- A 28,000-character device name, driving the history over the
truncation threshold. -/
def bigDev : String := String.mk (List.replicate 28000 'a')

/-! ## General lemmas about the embedding -/

/-- Success of an `Except` bind splits into successes of both stages. -/
theorem bind_ok {α β : Type} (x : Except String α) (f : α → Except String β) (b : β) :
    x >>= f = Except.ok b ↔ ∃ a, x = Except.ok a ∧ f a = Except.ok b := by
  cases x <;> simp [Bind.bind, Except.bind]

/-- A failed request makes `safe_get_json` return the empty dict. -/
theorem failed_safe (r : GetResult) (h : failedB r = true) :
    safe_get_json r = .obj [] := by
  cases r with
  | exn => rfl
  | ok status body =>
      simp [failedB] at h
      simp [safe_get_json, h]

/-- Every category extraction yields the empty list on the empty dict. -/
theorem catExtract_empty (c : Category) : catExtract c (.obj []) = .ok [] := by
  cases c <;> rfl

/-- `clean` caps its output at 300 characters. -/
theorem clean_length_le (t : JsonV) : (clean t).length ≤ 300 := by
  have h : (clean t).length =
      ((pyStripL ((pyStr t).data.map
        (fun c => if c == '\n' then ' ' else c))).take 300).length := rfl
  rw [h]
  exact List.length_take_le _ _

/-- Stripping only removes characters. -/
theorem mem_of_pyStripL {a : Char} {l : List Char} (h : a ∈ pyStripL l) : a ∈ l := by
  unfold pyStripL at h
  rw [List.mem_reverse] at h
  have h2 := (List.dropWhile_sublist _).subset h
  rw [List.mem_reverse] at h2
  exact (List.dropWhile_sublist _).subset h2

/-- `clean` leaves no newline in its output: `replace('\n', ' ')` maps every
newline away and the later strip/truncate only drop characters. -/
theorem clean_no_newline (t : JsonV) : '\n' ∉ (clean t).data := by
  intro hmem
  have hmem2 : '\n' ∈ (pyStripL ((pyStr t).data.map
      (fun c => if c == '\n' then ' ' else c))).take 300 := hmem
  have h0 : '\n' ∈ ((pyStr t).data.map fun c => if c == '\n' then ' ' else c) :=
    mem_of_pyStripL (List.mem_of_mem_take hmem2)
  rcases List.mem_map.1 h0 with ⟨c, _, hcc⟩
  by_cases h : c = '\n'
  · simp [h] at hcc
  · simp [h] at hcc

/-- When `afterFirst` finds the pattern, the pattern is an infix. -/
theorem infix_of_afterFirst {pat l : List Char}
    (h : (afterFirst pat l).isSome) : pat <:+: l := by
  induction l with
  | nil =>
      by_cases hp : pat.isPrefixOf ([] : List Char)
      · exact (List.isPrefixOf_iff_prefix.1 hp).isInfix
      · simp [afterFirst, hp] at h
  | cons c rest ih =>
      by_cases hp : pat.isPrefixOf (c :: rest)
      · exact (List.isPrefixOf_iff_prefix.1 hp).isInfix
      · simp only [afterFirst, hp, if_false] at h
        exact List.infix_cons_iff.mpr (Or.inr (ih h))

/-- The regex model: a reply without the literal marker extracts `"Unknown"`. -/
theorem extractField_not_found (marker reply : String)
    (h : ¬ (marker.data <:+: reply.data)) : extractField marker reply = "Unknown" := by
  cases haf : afterFirst marker.data reply.data with
  | none => simp [extractField, haf]
  | some rest => exact absurd (infix_of_afterFirst (by simp [haf])) h

/-- `get_patient_data` assembled from a found patient and the four
successful category extractions. -/
theorem get_patient_data_ok (fetch : Category → GetResult) (pid nm : JsonV)
    (d c p i : List String)
    (hpat : patientStage (safe_get_json (fetch .patient)) = .ok (some (pid, nm)))
    (hd : extractDevs (safe_get_json (fetch .device)) = .ok d)
    (hc : extractConds (safe_get_json (fetch .condition)) = .ok c)
    (hp : extractProcs (safe_get_json (fetch .procedure)) = .ok p)
    (hi : extractImgs (safe_get_json (fetch .diagnosticReport)) = .ok i) :
    get_patient_data fetch = .ok ⟨pid, nm, d, c, p, i⟩ := by
  simp [get_patient_data, hpat, hd, hc, hp, hi, Bind.bind, Except.bind, pure,
    Except.pure]

/-- One found patient makes the `app.py` loop emit exactly its row. -/
theorem appMainLoop_single_found (fetch : Category → GetResult)
    (gen : String → Except String String) (mrn : String) (b : Bundle)
    (hget : get_patient_data fetch = .ok b) (ht : b.pid.truthy = true) :
    appMainLoop (fun _ => fetch) gen [mrn] = .ok [processFound gen mrn b] := by
  simp [appMainLoop, hget, ht, Bind.bind, Except.bind, pure, Except.pure]

/-- The error branch of `parse_data_to_row`, for a well-shaped
`patient_info`. -/
theorem parse_error_branch (kvs : List (String × JsonV)) (v : JsonV)
    (he : kvs.lookup "error" = some v) (hp : pinfoOk kvs) :
    parse_data_to_row (.obj kvs) =
      .ok [("MRN", errRowMRN kvs), ("Status", .s "API Error"), ("Summary", v)] := by
  have hin : pyIn "error" (.obj kvs) = .ok true := by simp [pyIn, he]
  rcases hmatch : (kvs.lookup "patient_info").getD (JsonV.obj []) with _|_|_|_|_|ps
  case null | b | i | s | arr =>
    unfold pinfoOk at hp
    rw [hmatch] at hp
    exact hp.elim
  case obj =>
    have hmrn : errRowMRN kvs = (ps.lookup "mrn").getD (.s "Unknown") := by
      unfold errRowMRN
      rw [hmatch]
    simp [parse_data_to_row, hin, pyGetD, hmatch, pyKey, he, hmrn, Bind.bind,
      Except.bind, pure, Except.pure]

/-- Every device-list entry is `clean` of some value. -/
theorem devLoop_shape (es : List JsonV) (l : List String) (h : devLoop es = .ok l) :
    ∀ x ∈ l, ∃ t, x = clean t := by
  induction es generalizing l with
  | nil =>
      simp only [devLoop, Except.ok.injEq] at h
      subst h
      simp
  | cons e rest ih =>
      simp only [devLoop, bind_ok] at h
      obtain ⟨resc, h1, dn, h2, d0, h3, nm, h4, tail, h5, h6⟩ := h
      simp only [pure, Except.pure, Except.ok.injEq] at h6
      subst h6
      intro x hx
      rcases List.mem_cons.1 hx with hx | hx
      · exact ⟨_, hx⟩
      · exact ih tail h5 x hx

/-- Every active-conditions entry is `clean` of some value. -/
theorem condLoop_shape (es : List JsonV) (l : List String) (h : condLoop es = .ok l) :
    ∀ x ∈ l, ∃ t, x = clean t := by
  induction es generalizing l with
  | nil =>
      simp only [condLoop, Except.ok.injEq] at h
      subst h
      simp
  | cons e rest ih =>
      simp only [condLoop, bind_ok] at h
      obtain ⟨resc, h1, cs, h2, coding, h3, c0, h4, code, h5, h6⟩ := h
      split at h6
      · simp only [bind_ok] at h6
        obtain ⟨cd, h7, txt, h8, tail, h9, h10⟩ := h6
        simp only [pure, Except.pure, Except.ok.injEq] at h10
        subst h10
        intro x hx
        rcases List.mem_cons.1 hx with hx | hx
        · exact ⟨_, hx⟩
        · exact ih tail h9 x hx
      · exact ih l h6

/-- Every imaging entry is `clean` of some value. -/
theorem imgLoop_shape (es : List JsonV) (l : List String) (h : imgLoop es = .ok l) :
    ∀ x ∈ l, ∃ t, x = clean t := by
  induction es generalizing l with
  | nil =>
      simp only [imgLoop, Except.ok.injEq] at h
      subst h
      simp
  | cons e rest ih =>
      simp only [imgLoop, bind_ok] at h
      obtain ⟨resc, h1, catArr, h2, c0, h3, ctext, h4, h5⟩ := h
      split at h5
      · simp only [bind_ok] at h5
        obtain ⟨cd, h6, txt, h7, tail, h8, h9⟩ := h5
        simp only [pure, Except.pure, Except.ok.injEq] at h9
        subst h9
        intro x hx
        rcases List.mem_cons.1 hx with hx | hx
        · exact ⟨_, hx⟩
        · exact ih tail h8 x hx
      · exact ih l h5

/-- Every procedure entry is `clean` of a name followed by the rendered
date in parentheses. -/
theorem procLoop_shape (es : List JsonV) (l : List String) (h : procLoop es = .ok l) :
    ∀ x ∈ l, ∃ t d, x = clean t ++ " (" ++ pyStr d ++ ")" := by
  induction es generalizing l with
  | nil =>
      simp only [procLoop, Except.ok.injEq] at h
      subst h
      simp
  | cons e rest ih =>
      simp only [procLoop, bind_ok] at h
      obtain ⟨resc, h1, cd, h2, txt, h3, pp, h4, pstart, h5, tail, h6, h7⟩ := h
      simp only [pure, Except.pure, Except.ok.injEq] at h7
      subst h7
      intro x hx
      rcases List.mem_cons.1 hx with hx | hx
      · exact ⟨_, _, hx⟩
      · exact ih tail h6 x hx

/-! ## The claims -/

/-- C1: for every submitted identifier list, variant 2 (`mri_tool.py`)
produces exactly one report row per submitted identifier, error rows
included, whereas variant 1 (`app.py`) produces exactly one row per
identifier whose Patient lookup succeeded (`lookupFound`), not-found
identifiers contributing zero rows.  Both parts assume the run returned
normally, i.e. every remote response had the shape the external services
are specified to emit. -/
theorem claimC1_row_counts :
    (∀ (remote : String → PostResult) (mrns : List String) (rows : List Row),
      mriToolMainLoop remote mrns = .ok rows → rows.length = mrns.length) ∧
    (∀ (fhir : String → Category → GetResult) (gen : String → Except String String)
      (mrns : List String) (rows : List Row),
      appMainLoop fhir gen mrns = .ok rows →
      rows.length = mrns.countP (fun mrn => lookupFound (fhir mrn))) := by
  constructor
  · intro remote mrns
    induction mrns with
    | nil =>
        intro rows h
        simp only [mriToolMainLoop, Except.ok.injEq] at h
        subst h
        rfl
    | cons mrn rest ih =>
        intro rows h
        simp only [mriToolMainLoop, bind_ok] at h
        obtain ⟨row, hrow, tail, htail, h⟩ := h
        simp only [pure, Except.pure, Except.ok.injEq] at h
        subst h
        simp [List.length_cons, ih tail htail]
  · intro fhir gen mrns
    induction mrns with
    | nil =>
        intro rows h
        simp only [appMainLoop, Except.ok.injEq] at h
        subst h
        rfl
    | cons mrn rest ih =>
        intro rows h
        simp only [appMainLoop, bind_ok] at h
        obtain ⟨b, hb, h⟩ := h
        have hfound : lookupFound (fhir mrn) = b.pid.truthy := by
          simp [lookupFound, hb]
        by_cases ht : b.pid.truthy = true
        · simp only [ht, if_true, bind_ok] at h
          obtain ⟨tail, htail, h⟩ := h
          simp only [pure, Except.pure, Except.ok.injEq] at h
          subst h
          simp [List.countP_cons, hfound, ht, ih tail htail]
        · simp only [ht, if_false] at h
          have ht2 : b.pid.truthy = false := by
            cases hbt : b.pid.truthy
            · rfl
            · exact absurd hbt ht
          simp only [ht2, Bool.false_eq_true, if_false] at h
          simp [List.countP_cons, hfound, ht2, ih rows h]

/-- C1 witness: two MRNs against an always-failing triage endpoint give two
error rows in variant 2; MRNs `"a"` (found) and `"b"` (not found) give one
row in variant 1. -/
theorem claimC1_row_counts_witness :
    ([wErrRow "a", wErrRow "b"] : List Row).length = (["a", "b"] : List String).length ∧
    ([processFound wGen "a" wBundle] : List Row).length =
      (["a", "b"] : List String).countP (fun mrn => lookupFound (wFhir mrn)) :=
  ⟨claimC1_row_counts.1 wRemote ["a", "b"] [wErrRow "a", wErrRow "b"] rfl,
   claimC1_row_counts.2 wFhir wGen ["a", "b"] [processFound wGen "a" wBundle] rfl⟩

/-- C2 counterexample: the claim includes the Patient category among those
whose request failure still yields a report row, but when the Patient
request itself fails, `get_patient_data` returns the not-found signal
(`pid = None`) and the main loop emits zero rows for that identifier. -/
theorem claimC2_counterexample :
    failedB ((fun _ => GetResult.exn) Category.patient) = true ∧
    get_patient_data (fun _ => GetResult.exn) = .ok ⟨.null, .null, [], [], [], []⟩ ∧
    appMainLoop (fun _ _ => GetResult.exn) (fun _ => .ok "fine") ["203715"] = .ok [] :=
  ⟨rfl, rfl, rfl⟩

/-- C2 (amended): for each of the four detail categories (Device,
Condition, Procedure, DiagnosticReport), a request that raises a transport
error or returns a non-200 status yields an empty finding list for that
category only; `get_patient_data` still returns a bundle carrying the
Patient data and the other categories' findings, and — when the patient was
found — the main loop still produces that identifier's report row.  A
failed Patient request instead yields the not-found signal: the fetch still
returns normally, but no report row is produced for that identifier. -/
theorem claimC2_per_category_fault_tolerance :
    (∀ (fetch : Category → GetResult) (c : Category) (pid nm : JsonV),
      c ≠ Category.patient →
      failedB (fetch c) = true →
      (∀ c2, c2 ≠ Category.patient → c2 ≠ c →
        ∃ l, catExtract c2 (safe_get_json (fetch c2)) = Except.ok l) →
      patientStage (safe_get_json (fetch Category.patient)) = .ok (some (pid, nm)) →
      ∃ b, get_patient_data fetch = .ok b ∧ b.cat c = [] ∧ b.pid = pid ∧ b.name = nm ∧
        (pid.truthy = true →
          ∀ gen mrn, appMainLoop (fun _ => fetch) gen [mrn] =
            .ok [processFound gen mrn b])) ∧
    (∀ (fetch : Category → GetResult) (gen : String → Except String String)
      (mrn : String),
      failedB (fetch Category.patient) = true →
      get_patient_data fetch = .ok ⟨.null, .null, [], [], [], []⟩ ∧
      appMainLoop (fun _ => fetch) gen [mrn] = .ok []) := by
  constructor
  · intro fetch c pid nm hc hfail hothers hpat
    have hempty : catExtract c (safe_get_json (fetch c)) = .ok [] := by
      rw [failed_safe _ hfail]
      exact catExtract_empty c
    cases c with
    | patient => exact absurd rfl hc
    | device =>
        obtain ⟨lc, hlc⟩ := hothers Category.condition (by decide) (by decide)
        obtain ⟨lp, hlp⟩ := hothers Category.procedure (by decide) (by decide)
        obtain ⟨li, hli⟩ := hothers Category.diagnosticReport (by decide) (by decide)
        simp only [catExtract] at hempty hlc hlp hli
        refine ⟨⟨pid, nm, [], lc, lp, li⟩,
          get_patient_data_ok fetch pid nm [] lc lp li hpat hempty hlc hlp hli,
          rfl, rfl, rfl, ?_⟩
        intro ht gen mrn
        exact appMainLoop_single_found fetch gen mrn _
          (get_patient_data_ok fetch pid nm [] lc lp li hpat hempty hlc hlp hli) ht
    | condition =>
        obtain ⟨ld, hld⟩ := hothers Category.device (by decide) (by decide)
        obtain ⟨lp, hlp⟩ := hothers Category.procedure (by decide) (by decide)
        obtain ⟨li, hli⟩ := hothers Category.diagnosticReport (by decide) (by decide)
        simp only [catExtract] at hempty hld hlp hli
        refine ⟨⟨pid, nm, ld, [], lp, li⟩,
          get_patient_data_ok fetch pid nm ld [] lp li hpat hld hempty hlp hli,
          rfl, rfl, rfl, ?_⟩
        intro ht gen mrn
        exact appMainLoop_single_found fetch gen mrn _
          (get_patient_data_ok fetch pid nm ld [] lp li hpat hld hempty hlp hli) ht
    | procedure =>
        obtain ⟨ld, hld⟩ := hothers Category.device (by decide) (by decide)
        obtain ⟨lc, hlc⟩ := hothers Category.condition (by decide) (by decide)
        obtain ⟨li, hli⟩ := hothers Category.diagnosticReport (by decide) (by decide)
        simp only [catExtract] at hempty hld hlc hli
        refine ⟨⟨pid, nm, ld, lc, [], li⟩,
          get_patient_data_ok fetch pid nm ld lc [] li hpat hld hlc hempty hli,
          rfl, rfl, rfl, ?_⟩
        intro ht gen mrn
        exact appMainLoop_single_found fetch gen mrn _
          (get_patient_data_ok fetch pid nm ld lc [] li hpat hld hlc hempty hli) ht
    | diagnosticReport =>
        obtain ⟨ld, hld⟩ := hothers Category.device (by decide) (by decide)
        obtain ⟨lc, hlc⟩ := hothers Category.condition (by decide) (by decide)
        obtain ⟨lp, hlp⟩ := hothers Category.procedure (by decide) (by decide)
        simp only [catExtract] at hempty hld hlc hlp
        refine ⟨⟨pid, nm, ld, lc, lp, []⟩,
          get_patient_data_ok fetch pid nm ld lc lp [] hpat hld hlc hlp hempty,
          rfl, rfl, rfl, ?_⟩
        intro ht gen mrn
        exact appMainLoop_single_found fetch gen mrn _
          (get_patient_data_ok fetch pid nm ld lc lp [] hpat hld hlc hlp hempty) ht
  · intro fetch gen mrn hfail
    have hsafe : safe_get_json (fetch Category.patient) = .obj [] :=
      failed_safe _ hfail
    have hget : get_patient_data fetch = .ok ⟨.null, .null, [], [], [], []⟩ := by
      have hps : patientStage (JsonV.obj []) = .ok none := rfl
      simp [get_patient_data, hsafe, hps, Bind.bind, Except.bind, pure, Except.pure]
    refine ⟨hget, ?_⟩
    simp [appMainLoop, hget, JsonV.truthy, Bind.bind, Except.bind, pure, Except.pure]

/-- C2 witness: patient `"a"` is found under `wFhir` while the Device
request fails; the bundle still comes back with an empty device list and
the report row is still produced. -/
theorem claimC2_per_category_fault_tolerance_witness :
    (∃ b, get_patient_data (wFhir "a") = .ok b ∧ b.cat Category.device = [] ∧
      b.pid = JsonV.s "p1" ∧ b.name = JsonV.s "Alice Smith" ∧
      ((JsonV.s "p1").truthy = true →
        ∀ gen mrn, appMainLoop (fun _ => wFhir "a") gen [mrn] =
          .ok [processFound gen mrn b])) ∧
    (get_patient_data (fun _ => GetResult.exn) = .ok ⟨.null, .null, [], [], [], []⟩ ∧
      appMainLoop (fun _ => fun _ => GetResult.exn) wGen ["b"] = .ok []) :=
  ⟨claimC2_per_category_fault_tolerance.1 (wFhir "a") Category.device
      (JsonV.s "p1") (JsonV.s "Alice Smith") (by decide) rfl
      (fun c2 h1 h2 => by
        cases c2 with
        | patient => exact absurd rfl h1
        | device => exact absurd rfl h2
        | condition => exact ⟨[], rfl⟩
        | procedure => exact ⟨[], rfl⟩
        | diagnosticReport => exact ⟨[], rfl⟩)
      rfl,
   claimC2_per_category_fault_tolerance.2 (fun _ => GetResult.exn) wGen "b" rfl⟩

set_option maxRecDepth 100000 in
/-- C3 counterexample: a procedure whose `code.text` has 301 characters and
whose performed date contains a newline yields the list entry
`clean(name) + " (" + date + ")"`, which is 308 characters long and
contains a newline — the date suffix is appended after the 300-character
truncation, so the claimed bound fails for procedure entries. -/
theorem claimC3_counterexample :
    extractProcs procRespBig =
      .ok [String.mk (List.replicate 300 'a') ++ " (20\n23)"] ∧
    300 < (String.mk (List.replicate 300 'a') ++ " (20\n23)").length ∧
    '\n' ∈ (String.mk (List.replicate 300 'a') ++ " (20\n23)").data :=
  ⟨rfl, by decide, by decide⟩

/-- C3 (amended): every entry of the device, active-condition and imaging
lists is at most 300 characters and contains no newline; a procedure entry
is such a cleaned (at most 300 characters, newline-free) name with
`" (" + date + ")"` appended afterwards, so the full procedure entry can
exceed 300 characters and can contain whatever characters the rendered
date has. -/
theorem claimC3_finding_entry_bounds :
    (∀ (resp : JsonV) (l : List String),
      (extractDevs resp = .ok l ∨ extractConds resp = .ok l ∨
        extractImgs resp = .ok l) →
      ∀ x ∈ l, x.length ≤ 300 ∧ '\n' ∉ x.data) ∧
    (∀ (resp : JsonV) (l : List String), extractProcs resp = .ok l →
      ∀ x ∈ l, ∃ nm dt, x = nm ++ " (" ++ dt ++ ")" ∧ nm.length ≤ 300 ∧
        '\n' ∉ nm.data) := by
  constructor
  · intro resp l h x hx
    have hshape : ∃ t, x = clean t := by
      rcases h with h | h | h
      · simp only [extractDevs, bind_ok] at h
        obtain ⟨ent, h1, es, h2, h3⟩ := h
        exact devLoop_shape es l h3 x hx
      · simp only [extractConds, bind_ok] at h
        obtain ⟨ent, h1, es, h2, h3⟩ := h
        exact condLoop_shape es l h3 x hx
      · simp only [extractImgs, bind_ok] at h
        obtain ⟨ent, h1, es, h2, h3⟩ := h
        exact imgLoop_shape es l h3 x hx
    obtain ⟨t, rfl⟩ := hshape
    exact ⟨clean_length_le t, clean_no_newline t⟩
  · intro resp l h x hx
    simp only [extractProcs, bind_ok] at h
    obtain ⟨ent, h1, es, h2, h3⟩ := h
    obtain ⟨t, d, rfl⟩ := procLoop_shape es l h3 x hx
    exact ⟨clean t, pyStr d, rfl, clean_length_le t, clean_no_newline t⟩

/-- C3 witness: a short device name and a dated procedure entry, checked
against the amended bounds. -/
theorem claimC3_finding_entry_bounds_witness :
    ("Pacemaker".length ≤ 300 ∧ '\n' ∉ "Pacemaker".data) ∧
    (∃ nm dt, "Appendectomy (2019-03-04)" = nm ++ " (" ++ dt ++ ")" ∧
      nm.length ≤ 300 ∧ '\n' ∉ nm.data) :=
  ⟨claimC3_finding_entry_bounds.1 wDevResp ["Pacemaker"] (Or.inl rfl) "Pacemaker"
      (by simp),
   claimC3_finding_entry_bounds.2 wProcResp ["Appendectomy (2019-03-04)"] rfl
      "Appendectomy (2019-03-04)" (by simp)⟩

/-- C4 counterexample: a response dict with `"error": "timeout"` whose
`patient_info` value is not a dict makes the error branch raise
(`.get` on an int) instead of returning a row, so the claim fails as
universally stated. -/
theorem claimC4_counterexample :
    parse_data_to_row (.obj [("error", JsonV.s "timeout"), ("patient_info", JsonV.i 7)]) =
      .error "AttributeError" := rfl

/-- C4 (amended): for every response dict containing `"error": "timeout"`
whose `patient_info` value, when present, is itself a dict,
`parse_data_to_row` returns a row with Status `"API Error"` and Summary
`"timeout"`. -/
theorem claimC4_timeout_row :
    ∀ kvs : List (String × JsonV),
      kvs.lookup "error" = some (.s "timeout") →
      pinfoOk kvs →
      ∃ row, parse_data_to_row (.obj kvs) = .ok row ∧
        row.lookup "Status" = some (.s "API Error") ∧
        row.lookup "Summary" = some (.s "timeout") := by
  intro kvs he hp
  exact ⟨_, parse_error_branch kvs _ he hp, rfl, rfl⟩

/-- C4 witness: the minimal timeout response. -/
theorem claimC4_timeout_row_witness :
    ∃ row, parse_data_to_row (.obj [("error", JsonV.s "timeout")]) = .ok row ∧
      row.lookup "Status" = some (.s "API Error") ∧
      row.lookup "Summary" = some (.s "timeout") :=
  claimC4_timeout_row [("error", JsonV.s "timeout")] rfl (by exact trivial)

/-- C10 counterexample: a response dict with an `"error"` key whose
`patient_info` value is a string makes the error branch raise
(`.get` on a str) instead of returning the three-key row, so the claim
fails for arbitrary accompanying fields. -/
theorem claimC10_counterexample :
    parse_data_to_row (.obj [("error", JsonV.s "x"), ("patient_info", JsonV.s "oops")]) =
      .error "AttributeError" := rfl

/-- C10 (amended): for every response dict containing the key `"error"`
whose `patient_info` value, when present, is itself a dict,
`parse_data_to_row` takes the error branch regardless of any other fields
and returns a dict with exactly the keys `MRN`, `Status`, `Summary`. -/
theorem claimC10_error_row_keys :
    ∀ (kvs : List (String × JsonV)) (v : JsonV),
      kvs.lookup "error" = some v → pinfoOk kvs →
      ∃ row, parse_data_to_row (.obj kvs) = .ok row ∧
        row.map Prod.fst = v2ErrorCols := by
  intro kvs v he hp
  exact ⟨_, parse_error_branch kvs v he hp, rfl⟩

/-- C10 witness: an error response that also carries a success-path field;
the error branch still wins and the row has exactly the three keys. -/
theorem claimC10_error_row_keys_witness :
    ∃ row, parse_data_to_row (.obj [("error", JsonV.i 500),
        ("mri_safety_assessment", JsonV.obj [("status", JsonV.s "Safe")])]) = .ok row ∧
      row.map Prod.fst = v2ErrorCols :=
  claimC10_error_row_keys
    [("error", JsonV.i 500),
     ("mri_safety_assessment", JsonV.obj [("status", JsonV.s "Safe")])]
    (JsonV.i 500) rfl (by exact trivial)

/-- C5 counterexample: in variant 2 an error row has the three-key schema
while a success row has the eleven-key schema, so report rows do not all
share one column set once an error row exists. -/
theorem claimC5_counterexample :
    parse_data_to_row (.obj [("error", JsonV.s "x")]) =
      .ok [("MRN", JsonV.s "Unknown"), ("Status", JsonV.s "API Error"),
        ("Summary", JsonV.s "x")] ∧
    parse_data_to_row (.obj []) =
      .ok [("MRN", JsonV.s ""), ("Name", JsonV.s ""), ("DOB", JsonV.s ""),
        ("Gender", JsonV.s ""), ("Safety Status", JsonV.s ""),
        ("Risk Level", JsonV.s ""), ("Devices/Implants Found", JsonV.s ""),
        ("Clinical Summary", JsonV.s ""), ("Key Concerns", JsonV.s ""),
        ("Technologist Recommendations", JsonV.s ""), ("Timestamp", JsonV.s "")] ∧
    ([("MRN", JsonV.s "Unknown"), ("Status", JsonV.s "API Error"),
        ("Summary", JsonV.s "x")] : Row).map Prod.fst ≠
      ([("MRN", JsonV.s ""), ("Name", JsonV.s ""), ("DOB", JsonV.s ""),
        ("Gender", JsonV.s ""), ("Safety Status", JsonV.s ""),
        ("Risk Level", JsonV.s ""), ("Devices/Implants Found", JsonV.s ""),
        ("Clinical Summary", JsonV.s ""), ("Key Concerns", JsonV.s ""),
        ("Technologist Recommendations", JsonV.s ""),
        ("Timestamp", JsonV.s "")] : Row).map Prod.fst :=
  ⟨rfl, rfl, by decide⟩

/-- C5 (amended): every variant-1 row has the fixed seven-column schema;
in variant 2 every success row has the fixed eleven-column schema (missing
data appearing as the empty-string defaults) while every error row has the
reduced three-column schema `MRN`/`Status`/`Summary`. -/
theorem claimC5_row_schema :
    (∀ (fhir : String → Category → GetResult) (gen : String → Except String String)
      (mrns : List String) (rows : List Row),
      appMainLoop fhir gen mrns = .ok rows →
      ∀ r ∈ rows, r.map Prod.fst = v1Cols) ∧
    (∀ (kvs : List (String × JsonV)) (row : Row),
      parse_data_to_row (.obj kvs) = .ok row →
      row.map Prod.fst =
        (if (kvs.lookup "error").isSome then v2ErrorCols else v2SuccessCols)) := by
  constructor
  · intro fhir gen mrns
    induction mrns with
    | nil =>
        intro rows h
        simp only [appMainLoop, Except.ok.injEq] at h
        subst h
        simp
    | cons mrn rest ih =>
        intro rows h
        simp only [appMainLoop, bind_ok] at h
        obtain ⟨b, hb, h⟩ := h
        by_cases ht : b.pid.truthy = true
        · simp only [ht, if_true, bind_ok] at h
          obtain ⟨tail, htail, h⟩ := h
          simp only [pure, Except.pure, Except.ok.injEq] at h
          subst h
          intro r hr
          rcases List.mem_cons.1 hr with hr | hr
          · subst hr
            rfl
          · exact ih tail htail r hr
        · have ht2 : b.pid.truthy = false := by
            cases hbt : b.pid.truthy
            · rfl
            · exact absurd hbt ht
          simp only [ht2, Bool.false_eq_true, if_false] at h
          exact ih rows h
  · intro kvs row h
    have hin : pyIn "error" (JsonV.obj kvs) = .ok ((kvs.lookup "error").isSome) := rfl
    simp only [parse_data_to_row, hin, bind_ok] at h
    obtain ⟨hasErr, hhe, h⟩ := h
    simp only [Except.ok.injEq] at hhe
    subst hhe
    cases hcase : (kvs.lookup "error").isSome with
    | true =>
        rw [hcase] at h
        simp only [if_true] at h
        simp only [bind_ok] at h
        obtain ⟨pinfo, h1, mrnv, h2, errv, h3, h4⟩ := h
        simp only [pure, Except.pure, Except.ok.injEq] at h4
        subst h4
        rfl
    | false =>
        rw [hcase] at h
        simp only [Bool.false_eq_true, if_false] at h
        simp only [bind_ok] at h
        obtain ⟨assessment, h1, patient, h2, details, h3, findings, h4, items, h5,
          devices_found, h6, concerns, h7, concerns_str, h8, recs, h9, recs_str, h10,
          mrn2, h11, nme, h12, dob, h13, gender, h14, status, h15, risk, h16,
          summary, h17, ts, h18, hfin⟩ := h
        simp only [pure, Except.pure, Except.ok.injEq] at hfin
        subst hfin
        rfl

/-- C5 witness: the found patient's variant-1 row has the seven columns,
and a concrete variant-2 error row has the three-column schema. -/
theorem claimC5_row_schema_witness :
    (processFound wGen "a" wBundle).map Prod.fst = v1Cols ∧
    ([("MRN", JsonV.s "Unknown"), ("Status", JsonV.s "API Error"),
        ("Summary", JsonV.s "x")] : Row).map Prod.fst =
      (if (([("error", JsonV.s "x")] : List (String × JsonV)).lookup "error").isSome
        then v2ErrorCols else v2SuccessCols) :=
  ⟨claimC5_row_schema.1 wFhir wGen ["a", "b"] [processFound wGen "a" wBundle] rfl
      (processFound wGen "a" wBundle) (by simp),
   claimC5_row_schema.2 [("error", JsonV.s "x")]
      [("MRN", JsonV.s "Unknown"), ("Status", JsonV.s "API Error"),
        ("Summary", JsonV.s "x")] rfl⟩

/-- C6 counterexample: when the AI exception text itself contains the
status marker, the analysis cell still gets `"AI Error: ..."` but the
status field parses to `"Safe"`, not `"Unknown"`, because the markers are
searched inside the error text. -/
theorem claimC6_counterexample :
    (processFound (fun _ => .error "**MRI Safety Status:** Safe") "203715"
        wBundle).lookup "Full Analysis" =
      some (.s "AI Error: **MRI Safety Status:** Safe") ∧
    (processFound (fun _ => .error "**MRI Safety Status:** Safe") "203715"
        wBundle).lookup "Safety Status" = some (.s "Safe") ∧
    ("Safe" : String) ≠ "Unknown" :=
  ⟨rfl, rfl, by decide⟩

/-- C6 (amended): if the generative-AI call raises, the exception is caught
and `"AI Error: " + str(e)` becomes the analysis text and a report row is
still produced (`processFound` is total); the status and risk fields parse
to `"Unknown"` provided the resulting analysis text contains neither
literal marker. -/
theorem claimC6_ai_failure_row :
    ∀ (gen : String → Except String String) (mrn : String) (b : Bundle) (e : String),
      gen (analyzePrompt b.name b.devs b.conds b.procs b.imgs) = .error e →
      ¬ (statusMarker.data <:+: ("AI Error: " ++ e).data) →
      ¬ (riskMarker.data <:+: ("AI Error: " ++ e).data) →
      (processFound gen mrn b).lookup "Full Analysis" =
        some (.s ("AI Error: " ++ e)) ∧
      (processFound gen mrn b).lookup "Safety Status" = some (.s "Unknown") ∧
      (processFound gen mrn b).lookup "Risk Level" = some (.s "Unknown") := by
  intro gen mrn b e hgen h1 h2
  have hrep : analyze_with_ai gen b.name b.devs b.conds b.procs b.imgs =
      "AI Error: " ++ e := by
    unfold analyze_with_ai
    rw [hgen]
  have hs := extractField_not_found statusMarker ("AI Error: " ++ e) h1
  have hr := extractField_not_found riskMarker ("AI Error: " ++ e) h2
  simp only [processFound, hrep, hs, hr]
  exact ⟨rfl, rfl, rfl⟩

/-- C6 witness: an AI call failing with the message `"boom"`. -/
theorem claimC6_ai_failure_row_witness :
    (processFound (fun _ => .error "boom") "203715" wBundle).lookup "Full Analysis" =
      some (.s ("AI Error: " ++ "boom")) ∧
    (processFound (fun _ => .error "boom") "203715" wBundle).lookup "Safety Status" =
      some (.s "Unknown") ∧
    (processFound (fun _ => .error "boom") "203715" wBundle).lookup "Risk Level" =
      some (.s "Unknown") :=
  claimC6_ai_failure_row (fun _ => .error "boom") "203715" wBundle "boom" rfl
    (by decide) (by decide)

/-- C7: a reply in which the literal `**Risk Level:**` marker does not
occur extracts the risk field `"Unknown"` (the extraction is a total
function, so no exception can propagate), and likewise for the
`**MRI Safety Status:**` marker and the status field. -/
theorem claimC7_missing_marker_unknown :
    ∀ reply : String,
      (¬ (riskMarker.data <:+: reply.data) →
        extractField riskMarker reply = "Unknown") ∧
      (¬ (statusMarker.data <:+: reply.data) →
        extractField statusMarker reply = "Unknown") :=
  fun reply =>
    ⟨fun h => extractField_not_found riskMarker reply h,
     fun h => extractField_not_found statusMarker reply h⟩

/-- C7 witness: a marker-free reply extracts `"Unknown"` for both fields. -/
theorem claimC7_missing_marker_unknown_witness :
    extractField riskMarker "All good." = "Unknown" ∧
    extractField statusMarker "All good." = "Unknown" :=
  ⟨(claimC7_missing_marker_unknown "All good.").1 (by decide),
   (claimC7_missing_marker_unknown "All good.").2 (by decide)⟩

/-- String concatenation adds lengths. -/
theorem strLength_append (a b : String) : (a ++ b).length = a.length + b.length := by
  cases a with
  | mk la =>
    cases b with
    | mk lb =>
      show (la ++ lb).length = la.length + lb.length
      exact List.length_append la lb

/-- C8: when the assembled history exceeds 28,000 characters, the history
embedded in the prompt sent to the model is exactly its first 28,000
characters followed by the fixed `"\n...[TRUNCATED]"` suffix (28,015
characters in total); otherwise the history is embedded unchanged. -/
theorem claimC8_prompt_truncation :
    ∀ (name : JsonV) (devs conds procs imgs : List String),
      ((buildHistory devs conds procs imgs).length > 28000 →
        analyzePrompt name devs conds procs imgs =
          promptPre (pyStr name) ++
            (String.mk ((buildHistory devs conds procs imgs).data.take 28000) ++
              truncSuffix) ++ promptPost ∧
        (truncatedHistory devs conds procs imgs).length = 28015) ∧
      ((buildHistory devs conds procs imgs).length ≤ 28000 →
        analyzePrompt name devs conds procs imgs =
          promptPre (pyStr name) ++ buildHistory devs conds procs imgs ++
            promptPost) := by
  intro name devs conds procs imgs
  constructor
  · intro hlen
    constructor
    · simp only [analyzePrompt, truncatedHistory]
      rw [if_pos hlen]
    · simp only [truncatedHistory]
      rw [if_pos hlen]
      rw [strLength_append]
      have h2 : (String.mk
          ((buildHistory devs conds procs imgs).data.take 28000)).length = 28000 := by
        show ((buildHistory devs conds procs imgs).data.take 28000).length = 28000
        rw [List.length_take]
        have hlen2 : 28000 < (buildHistory devs conds procs imgs).data.length := hlen
        omega
      rw [h2]
      rfl
  · intro hle
    simp only [analyzePrompt, truncatedHistory]
    rw [if_neg (by omega)]

/-- C8 witness: a 28,000-character device name drives the history over the
threshold (truncated prompt, 28,015-character embedded history); empty
finding lists stay under it (history embedded unchanged). -/
theorem claimC8_prompt_truncation_witness :
    (analyzePrompt (JsonV.s "Alice") [bigDev] [] [] [] =
        promptPre (pyStr (JsonV.s "Alice")) ++
          (String.mk ((buildHistory [bigDev] [] [] []).data.take 28000) ++
            truncSuffix) ++ promptPost ∧
      (truncatedHistory [bigDev] [] [] []).length = 28015) ∧
    analyzePrompt (JsonV.s "Bob") [] [] [] [] =
      promptPre (pyStr (JsonV.s "Bob")) ++ buildHistory [] [] [] [] ++ promptPost := by
  constructor
  · refine (claimC8_prompt_truncation (JsonV.s "Alice") [bigDev] [] [] []).1 ?_
    have hb : bigDev.length = 28000 := List.length_replicate 28000 'a'
    have hsec : histSection "DEVICES:" [bigDev] =
        "DEVICES:" ++ "\n" ++ ("- " ++ bigDev) ++ "\n" := rfl
    have hc : histSection "CONDITIONS:" ([] : List String) = "" := rfl
    have hs2 : histSection "SURGERIES:" ([] : List String) = "" := rfl
    have hi : histSection "IMAGING:" ([] : List String) = "" := rfl
    have l1 : ("Patient\x27s Clinical History (FHIR Data):\n" : String).length = 40 :=
      rfl
    have l2 : (String.mk (List.replicate 40 '-')).length = 40 :=
      List.length_replicate 40 '-'
    have l3 : ("\n" : String).length = 1 := rfl
    have l4 : ("DEVICES:" : String).length = 8 := rfl
    have l5 : ("- " : String).length = 2 := rfl
    have l6 : ("" : String).length = 0 := rfl
    simp only [buildHistory, hsec, hc, hs2, hi, strLength_append, hb, l1, l2, l3,
      l4, l5, l6]
    omega
  · exact (claimC8_prompt_truncation (JsonV.s "Bob") [] [] [] []).2 (by decide)

/-- C9: whenever the condition loop returns normally, the active-conditions
list is exactly the entries whose clinical-status code is `"active"`,
mapped to their cleaned `code.text` with the `"Unknown Condition"`
fallback; entries with any other code (e.g. `"resolved"`) contribute
nothing. -/
theorem claimC9_condition_filtering :
    ∀ (es : List JsonV) (l : List String),
      condLoop es = .ok l → l = es.filterMap condPick := by
  intro es
  induction es with
  | nil =>
      intro l h
      simp only [condLoop, Except.ok.injEq] at h
      subst h
      rfl
  | cons e rest ih =>
      intro l h
      simp only [condLoop, bind_ok] at h
      obtain ⟨resc, h1, cs, h2, coding, h3, c0, h4, code, h5, h6⟩ := h
      have hcode : condCodeT e = .ok code := by
        simp only [condCodeT, bind_ok]
        exact ⟨resc, h1, cs, h2, coding, h3, c0, h4, h5⟩
      split at h6
      next hact =>
        simp only [bind_ok] at h6
        obtain ⟨cd, h7, txt, h8, tail, h9, h10⟩ := h6
        simp only [pure, Except.pure, Except.ok.injEq] at h10
        subst h10
        have hname : condNameT e = .ok txt := by
          simp only [condNameT, bind_ok]
          exact ⟨resc, h1, cd, h7, h8⟩
        simp only [List.filterMap_cons, condPick, hcode, hact, if_true, hname]
        simp [Except.toOption, ih tail h9]
      next hact =>
        have hnone : condPick e = none := by
          simp only [condPick, hcode]
          simp [hact]
        simp only [List.filterMap_cons, hnone]
        exact ih l h6

/-- C9 witness: an `"active"` atrial-fibrillation condition is kept and a
`"resolved"` condition is dropped. -/
theorem claimC9_condition_filtering_witness :
    ["Atrial fibrillation"] =
      [condActiveEntry, condResolvedEntry].filterMap condPick :=
  claimC9_condition_filtering [condActiveEntry, condResolvedEntry]
    ["Atrial fibrillation"] rfl
